import Mathlib

/-!
Verification of the session/context controller of `src/app.py`
(a Streamlit purchase-decision chatbot front end).

The Python source is shallowly embedded below:

* a `Turn` is one `{"role": ..., "parts": [{"text": ...}]}` entry of
  `st.session_state.chat_history`;
* `pySliceFrom` gives the Python `lst[i:]` slicing semantics (including the
  `lst[-0:] == lst[0:]` quirk), so that `context_for_api =
  chat_history[-MAX_HISTORY_PARTS:]` (line 147) is `buildContext`;
* the retry loop of lines 152-186 is `loopAux`/`runRetryLoop`, driven by an
  `oracle` giving the outcome of each `client.models.generate_content`
  attempt (`success` carries `response.text`, which may be `None`);
  note that line 170 evaluates `random.uniform(0, 1)` although `random`
  is imported nowhere in `app.py`, so that branch raises `NameError`
  (modelled by the `crashed` flag) instead of sleeping;
* one whole run of the input-handling block (lines 137-204) is
  `handleUserTurn`; the sidebar reset button (lines 98-100) is
  `resetSession`.

All Lean data is immutable, so "must not mutate the transcript" holds by
construction for every pure function below.
-/

/-- The two roles appearing in `chat_history`: `"user"` and `"model"`. -/
inductive Role where
  | user
  | model
deriving DecidableEq, Repr

/-- One chat-history entry: `{"role": role, "parts": [{"text": text}]}`. -/
structure Turn where
  role : Role
  text : String
deriving DecidableEq, Repr

/-- `MAX_CONTEXT_TURNS = 6` (app.py line 17). -/
def MAX_CONTEXT_TURNS : Nat := 6

/-- `MAX_HISTORY_PARTS = MAX_CONTEXT_TURNS * 2` (app.py line 18). -/
def MAX_HISTORY_PARTS : Nat := MAX_CONTEXT_TURNS * 2

/-- `MAX_RETRIES = 3` (app.py line 19). -/
def MAX_RETRIES : Nat := 3

/-- The Python slice `lst[i:]` for an integer `i`: the effective start index is
`max(0, len(lst) + i)` when `i < 0` and `min(i, len(lst))` otherwise
(CPython slice semantics; `Nat` truncated subtraction realises the
`max 0` clamp). -/
def pySliceFrom (l : List Turn) (i : Int) : List Turn :=
  if i < 0 then l.drop (l.length - (-i).toNat)
  else l.drop i.toNat

/-- The Python slice `lst[-K:]` for a natural `K`.  Beware `(-0 : Int) = 0`:
for `K = 0` this is `lst[0:]`, the whole list. -/
def pySliceLast (l : List Turn) (K : Nat) : List Turn :=
  pySliceFrom l (-(K : Int))

/-- `context_for_api = st.session_state.chat_history[-MAX_HISTORY_PARTS:]`
(app.py line 147): the Context Window Builder. -/
def buildContext (chat_history : List Turn) : List Turn :=
  pySliceLast chat_history MAX_HISTORY_PARTS

/-- The service-busy message assigned on rate-limit exhaustion
(app.py line 175). -/
def busyMessage : String :=
  "죄송합니다. 현재 서비스에 접속자가 많아 응답을 드릴 수 없습니다. 잠시 후 \x27대화 초기화\x27 버튼을 눌러 다시 시작해 주세요."

/-- The generic message assigned on `APIError` (app.py line 180). -/
def apiErrorMessage : String :=
  "API 통신 중 예기치 않은 오류가 발생했습니다. 잠시 후 다시 시도해 주세요."

/-- The generic message assigned on any other exception (app.py line 185). -/
def unknownErrorMessage : String :=
  "처리 중 알 수 없는 오류가 발생했습니다."

/-- Outcome of one `client.models.generate_content` attempt:
either a response (whose `.text` may be `None`), or one of the three
exception classes caught by the loop, in handler order:
`ResourceExhaustedError` (429), `APIError`, bare `Exception`. -/
inductive AttemptResult where
  | success (text : Option String)
  | rateLimited
  | apiFault
  | unclassified
deriving DecidableEq, Repr

/-- Python truthiness of an optional string (`if response_text:`):
`None` and `""` are falsy, every other string is truthy. -/
def truthyOptStr : Option String → Bool
  | none => false
  | some s => s != ""

/-- Observable result of the `for attempt in range(MAX_RETRIES)` loop
(app.py lines 152-186). -/
structure LoopResult where
  /-- the `response_text` variable when the loop exits normally -/
  response_text : Option String
  /-- `true` when an exception escaped the loop (the `NameError` raised by
  the unimported `random` at line 170) -/
  crashed : Bool
  /-- number of `generate_content` calls made -/
  attempts : Nat
  /-- number of `time.sleep` calls executed -/
  sleeps : Nat
deriving DecidableEq, Repr

/-- One iteration step of the retry loop.  `attempt` is the loop variable,
`fuel` the remaining iterations of `range(MAX_RETRIES)`.
On `rateLimited` with `attempt < MAX_RETRIES - 1` the source computes
`wait_time = (2 ** attempt) + random.uniform(0, 1)` (line 170), but
`random` is bound nowhere in `app.py`, so this raises `NameError` inside
the `except` handler; the exception propagates (no sibling handler of the
same `try` catches it) and the loop aborts before `time.sleep` runs. -/
def loopAux (oracle : Nat → AttemptResult) :
    Nat → Nat → Nat → Nat → LoopResult
  | _, 0, att, slp => ⟨none, false, att, slp⟩
  | attempt, _ + 1, att, slp =>
    match oracle attempt with
    | .success t => ⟨t, false, att + 1, slp⟩
    | .rateLimited =>
      if attempt < MAX_RETRIES - 1 then
        ⟨none, true, att + 1, slp⟩
      else
        ⟨some busyMessage, false, att + 1, slp⟩
    | .apiFault => ⟨some apiErrorMessage, false, att + 1, slp⟩
    | .unclassified => ⟨some unknownErrorMessage, false, att + 1, slp⟩

/-- The whole retry loop: `attempt` runs from `0` over `range(MAX_RETRIES)`. -/
def runRetryLoop (oracle : Nat → AttemptResult) : LoopResult :=
  loopAux oracle 0 MAX_RETRIES 0 0

/-- The per-session mutable state used by the claims:
`st.session_state.chat_history` and `st.session_state.log_count`. -/
structure SessionState where
  chat_history : List Turn
  log_count : Nat
deriving DecidableEq, Repr

/-- `{"role": "user", "parts": [{"text": s}]}` (app.py line 140). -/
def mkUserTurn (s : String) : Turn := ⟨Role.user, s⟩

/-- `{"role": "model", "parts": [{"text": s}]}` (app.py line 191). -/
def mkModelTurn (s : String) : Turn := ⟨Role.model, s⟩

/-- Observable outcome of one run of the input-handling block. -/
structure StepResult where
  state : SessionState
  /-- remote `generate_content` calls made -/
  attempts : Nat
  /-- backoff sleeps executed -/
  sleeps : Nat
  /-- `true` when the run aborted with an uncaught exception -/
  crashed : Bool
  /-- `true` when the CSV logging collaborator was notified (line 201) -/
  logged : Bool
deriving DecidableEq, Repr

/-- The input-handling block (app.py lines 137-204).
`input` is what `st.chat_input` returned (`none` when nothing was
submitted); the walrus `if user_prompt := st.chat_input(...)` runs the
block only when the value is truthy, i.e. a non-empty string.
Steps, as in the source: append the user turn (line 141), build
`context_for_api` (line 147), run the retry loop (lines 152-186), then
`if response_text:` append the model turn, bump `log_count`, and when
`auto_record_csv` is set write the CSV log (lines 189-201). -/
def handleUserTurn (st : SessionState) (input : Option String)
    (auto_record_csv : Bool) (oracle : Nat → AttemptResult) : StepResult :=
  match input with
  | none => ⟨st, 0, 0, false, false⟩
  | some s =>
    if s = "" then ⟨st, 0, 0, false, false⟩
    else
      let h1 := st.chat_history ++ [mkUserTurn s]
      let _context := buildContext h1
      let r := runRetryLoop oracle
      if r.crashed then
        ⟨⟨h1, st.log_count⟩, r.attempts, r.sleeps, true, false⟩
      else
        match r.response_text with
        | some t =>
          if t = "" then ⟨⟨h1, st.log_count⟩, r.attempts, r.sleeps, false, false⟩
          else
            ⟨⟨h1 ++ [mkModelTurn t], st.log_count + 1⟩,
              r.attempts, r.sleeps, false, auto_record_csv⟩
        | none => ⟨⟨h1, st.log_count⟩, r.attempts, r.sleeps, false, false⟩

/-- The sidebar reset button (app.py lines 98-100): clears
`chat_history` and zeroes `log_count` (a fresh `session_id` is also
drawn; it plays no role in the claims below). -/
def resetSession (_st : SessionState) : SessionState := ⟨[], 0⟩

/-- One user-visible turn event: the submitted input, the
`auto_record_csv` checkbox value, and the remote oracle for that run. -/
structure TurnEvent where
  input : Option String
  auto_record_csv : Bool
  oracle : Nat → AttemptResult

/-- A sequence of `handleUserTurn` invocations with no intervening reset. -/
def runSession (st : SessionState) : List TurnEvent → SessionState
  | [] => st
  | e :: rest => runSession (handleUserTurn st e.input e.auto_record_csv e.oracle).state rest

/-- A session event: either one input-handling run or a reset. -/
inductive SessionEvent where
  | turn (e : TurnEvent)
  | reset

/-- Apply one session event to the state. -/
def applyEvent (st : SessionState) : SessionEvent → SessionState
  | .turn e => (handleUserTurn st e.input e.auto_record_csv e.oracle).state
  | .reset => resetSession st

/-- Run a list of session events from a state. -/
def runEvents (st : SessionState) (evs : List SessionEvent) : SessionState :=
  evs.foldl applyEvent st

/-- Number of Assistant (`"model"`) turns in a history. -/
def assistantCount (l : List Turn) : Nat :=
  (l.filter (fun t => t.role = Role.model)).length

/-! ## Helper lemmas -/

theorem pySliceLast_pos (l : List Turn) (K : Nat) (hK : 0 < K) :
    pySliceLast l K = l.drop (l.length - K) := by
  have h1 : (-(K : Int)) < 0 := neg_neg_of_pos (by exact_mod_cast hK)
  unfold pySliceLast pySliceFrom
  rw [if_pos h1, neg_neg]
  simp

theorem runRetryLoop_eq (oracle : Nat → AttemptResult) :
    runRetryLoop oracle =
      match oracle 0 with
      | AttemptResult.success t => ⟨t, false, 1, 0⟩
      | AttemptResult.rateLimited => ⟨none, true, 1, 0⟩
      | AttemptResult.apiFault => ⟨some apiErrorMessage, false, 1, 0⟩
      | AttemptResult.unclassified => ⟨some unknownErrorMessage, false, 1, 0⟩ := by
  cases h : oracle 0 <;> simp [runRetryLoop, loopAux, MAX_RETRIES, h]

theorem handleUserTurn_keeps_history (st : SessionState) (s : String) (hs : s ≠ "")
    (auto : Bool) (oracle : Nat → AttemptResult) :
    st.chat_history ++ [mkUserTurn s] <+:
      (handleUserTurn st (some s) auto oracle).state.chat_history := by
  unfold handleUserTurn
  dsimp only
  rw [if_neg hs]
  split
  · exact ⟨[], by simp⟩
  · split
    · split
      · exact ⟨[], by simp⟩
      · exact ⟨_, rfl⟩
    · exact ⟨[], by simp⟩

theorem handleUserTurn_attempts_eq_one (st : SessionState) (s : String) (hs : s ≠ "")
    (auto : Bool) (oracle : Nat → AttemptResult) :
    (handleUserTurn st (some s) auto oracle).attempts = 1 := by
  have h1 : (runRetryLoop oracle).attempts = 1 := by
    rw [runRetryLoop_eq]; cases oracle 0 <;> rfl
  unfold handleUserTurn
  dsimp only
  rw [if_neg hs]
  split
  · exact h1
  · split
    · split
      · exact h1
      · exact h1
    · exact h1

/-! ## Claims -/

/-- C1: for every transcript and every positive configured window length `K`
(the length configured in the code is `MAX_HISTORY_PARTS = 12`), the Context
Window Builder slice `chat_history[-K:]` has length `min N K` and equals the
last `min N K` turns in their original order (it is the suffix obtained by
dropping the first `N - K` turns); being a pure function on immutable lists
it does not mutate the transcript.  The `K = 0` quirk is settled at C8. -/
theorem C1_window_bound (l : List Turn) (K : Nat) (hK : 0 < K) :
    (pySliceLast l K).length = min l.length K ∧
    pySliceLast l K = l.drop (l.length - K) ∧
    pySliceLast l K <:+ l := by
  have h := pySliceLast_pos l K hK
  refine ⟨?_, h, ?_⟩
  · rw [h, List.length_drop]; omega
  · rw [h]; exact ⟨l.take (l.length - K), List.take_append_drop _ l⟩

/-- Witness for C1: a concrete two-turn transcript with the configured
window length `MAX_HISTORY_PARTS`. -/
theorem C1_window_bound_witness :
    (pySliceLast [mkUserTurn "hi", mkModelTurn "ok"] MAX_HISTORY_PARTS).length =
      min ([mkUserTurn "hi", mkModelTurn "ok"] : List Turn).length MAX_HISTORY_PARTS ∧
    pySliceLast [mkUserTurn "hi", mkModelTurn "ok"] MAX_HISTORY_PARTS =
      ([mkUserTurn "hi", mkModelTurn "ok"] : List Turn).drop
        (([mkUserTurn "hi", mkModelTurn "ok"] : List Turn).length - MAX_HISTORY_PARTS) ∧
    pySliceLast [mkUserTurn "hi", mkModelTurn "ok"] MAX_HISTORY_PARTS <:+
      [mkUserTurn "hi", mkModelTurn "ok"] :=
  C1_window_bound [mkUserTurn "hi", mkModelTurn "ok"] MAX_HISTORY_PARTS (by decide)

/-- C8 counterexample: with `K = 0` the window is not empty on a non-empty
transcript, because `(-0 : Int) = 0` makes `chat_history[-0:]` the slice
`chat_history[0:]`, i.e. the whole list. -/
theorem C8_window_K0_counterexample :
    pySliceLast [mkUserTurn "hi"] 0 = [mkUserTurn "hi"] ∧
    (pySliceLast [mkUserTurn "hi"] 0).length ≠ 0 := by
  refine ⟨rfl, by decide⟩

/-- C8 amended: with `K = 0` the slice returns the entire transcript
(`lst[-0:]` is `lst[0:]` in Python), so the window is empty only when the
transcript itself is empty. -/
theorem C8_window_K0_amended (l : List Turn) : pySliceLast l 0 = l := by
  simp [pySliceLast, pySliceFrom]

/-- C3 counterexample: the whitespace-only input `"   "` is truthy under the
walrus guard of line 137, so the handler does append a User Turn and does
perform a remote call. -/
theorem C3_whitespace_counterexample :
    (handleUserTurn ⟨[], 0⟩ (some "   ") true
        (fun _ => AttemptResult.success (some "ok"))).state.chat_history =
      [mkUserTurn "   ", mkModelTurn "ok"] ∧
    (handleUserTurn ⟨[], 0⟩ (some "   ") true
        (fun _ => AttemptResult.success (some "ok"))).attempts = 1 := by
  exact ⟨rfl, rfl⟩

/-- C3 amended: the guard checks only Python truthiness.  Empty input (and a
run with no submission) leaves the transcript unchanged and performs no
remote call, while a whitespace-only string such as `"   "` is processed
like any other input: its User Turn is appended and a remote attempt is
made. -/
theorem C3_input_guard (st : SessionState) (auto : Bool)
    (oracle : Nat → AttemptResult) :
    handleUserTurn st (some "") auto oracle = ⟨st, 0, 0, false, false⟩ ∧
    handleUserTurn st none auto oracle = ⟨st, 0, 0, false, false⟩ ∧
    st.chat_history ++ [mkUserTurn "   "] <+:
      (handleUserTurn st (some "   ") auto oracle).state.chat_history ∧
    (handleUserTurn st (some "   ") auto oracle).attempts = 1 :=
  ⟨rfl, rfl, handleUserTurn_keeps_history st "   " (by decide) auto oracle,
    handleUserTurn_attempts_eq_one st "   " (by decide) auto oracle⟩

/-- C2 (code-bug evaluation): with every attempt rate-limited, the loop
makes one `generate_content` call and zero `time.sleep` calls, then aborts:
line 170 evaluates `random.uniform(0, 1)` although `random` is imported
nowhere in `app.py`, so a `NameError` escapes the handler — no backoff wait
in `[2^i, 2^i + 1)` ever occurs and no retry happens. -/
theorem C2_backoff_crash :
    runRetryLoop (fun _ => AttemptResult.rateLimited) =
      { response_text := none, crashed := true, attempts := 1, sleeps := 0 } := rfl

/-- C4: on `ApiFault` (`APIError`) or `Unclassified` (bare `Exception`) at
the first attempt, the loop returns a terminal failure message after exactly
one attempt, with no further attempt and no backoff sleep. -/
theorem C4_no_retry_on_fault (oracle : Nat → AttemptResult)
    (h : oracle 0 = AttemptResult.apiFault ∨
      oracle 0 = AttemptResult.unclassified) :
    (runRetryLoop oracle).attempts = 1 ∧
    (runRetryLoop oracle).sleeps = 0 ∧
    (runRetryLoop oracle).crashed = false ∧
    ((runRetryLoop oracle).response_text = some apiErrorMessage ∨
      (runRetryLoop oracle).response_text = some unknownErrorMessage) := by
  rcases h with h | h <;> simp [runRetryLoop_eq, h]

/-- Witness for C4 at the constant `APIError` oracle. -/
theorem C4_no_retry_on_fault_witness :
    ((fun _ : Nat => AttemptResult.apiFault) 0 = AttemptResult.apiFault ∨
      (fun _ : Nat => AttemptResult.apiFault) 0 = AttemptResult.unclassified) ∧
    ((runRetryLoop (fun _ => AttemptResult.apiFault)).attempts = 1 ∧
      (runRetryLoop (fun _ => AttemptResult.apiFault)).sleeps = 0 ∧
      (runRetryLoop (fun _ => AttemptResult.apiFault)).crashed = false ∧
      ((runRetryLoop (fun _ => AttemptResult.apiFault)).response_text =
          some apiErrorMessage ∨
        (runRetryLoop (fun _ => AttemptResult.apiFault)).response_text =
          some unknownErrorMessage)) :=
  ⟨Or.inl rfl, C4_no_retry_on_fault (fun _ => AttemptResult.apiFault) (Or.inl rfl)⟩

/-- C5 (code-bug evaluation): under consecutive rate limiting the handler
crashes with the `NameError` of line 170 at the first backoff, before the
retries are exhausted, so the service-busy Assistant Turn of line 175 is
never appended and the logging collaborator is not notified even with the
auto-log toggle on: only the User Turn is gained. -/
theorem C5_rate_limit_crash :
    handleUserTurn ⟨[], 0⟩ (some "help") true (fun _ => AttemptResult.rateLimited) =
      { state := { chat_history := [mkUserTurn "help"], log_count := 0 },
        attempts := 1, sleeps := 0, crashed := true, logged := false } := rfl

/-- Supporting fact (not itself a claim): the `APIError` leg of the failure
handling does behave as spec §4.5 step 6 describes — a generic-failure
Assistant Turn is appended, `log_count` is bumped, and with the auto-log
toggle on the CSV logging collaborator is notified. -/
theorem apiFault_appends_generic_message (st : SessionState) (s : String)
    (hs : s ≠ "") (oracle : Nat → AttemptResult)
    (h : oracle 0 = AttemptResult.apiFault) :
    handleUserTurn st (some s) true oracle =
      { state := ⟨st.chat_history ++ [mkUserTurn s, mkModelTurn apiErrorMessage],
            st.log_count + 1⟩,
        attempts := 1, sleeps := 0, crashed := false, logged := true } := by
  simp [handleUserTurn, runRetryLoop_eq, h, hs, apiErrorMessage]

/-- C9: when the remote call succeeds but `response.text` is `None` or the
empty string, the `if response_text:` guard of line 189 skips the Assistant
Turn, the `log_count` bump and the CSV notification: the interaction ends
with the transcript having gained only the User Turn. -/
theorem C9_empty_completion_dropped (st : SessionState) (s : String)
    (hs : s ≠ "") (auto : Bool) (oracle : Nat → AttemptResult)
    (h : oracle 0 = AttemptResult.success none ∨
      oracle 0 = AttemptResult.success (some "")) :
    handleUserTurn st (some s) auto oracle =
      { state := ⟨st.chat_history ++ [mkUserTurn s], st.log_count⟩,
        attempts := 1, sleeps := 0, crashed := false, logged := false } := by
  rcases h with h | h <;> simp [handleUserTurn, runRetryLoop_eq, h, hs]

/-- Witness for C9: a `None` completion on a concrete one-word input. -/
theorem C9_empty_completion_dropped_witness :
    ("hi" ≠ "") ∧
    ((fun _ : Nat => AttemptResult.success none) 0 = AttemptResult.success none ∨
      (fun _ : Nat => AttemptResult.success none) 0 =
        AttemptResult.success (some "")) ∧
    handleUserTurn ⟨[], 0⟩ (some "hi") true (fun _ => AttemptResult.success none) =
      { state := { chat_history := [mkUserTurn "hi"], log_count := 0 },
        attempts := 1, sleeps := 0, crashed := false, logged := false } :=
  ⟨by decide, Or.inl rfl,
    C9_empty_completion_dropped ⟨[], 0⟩ "hi" (by decide) true _ (Or.inl rfl)⟩

/-- C6: for every accepted (truthy) input, the User Turn is appended at the
old end of the transcript (line 141 runs before the remote call of line
157), and it is still present there whatever the remote outcome — success,
any failure class, or the line-170 crash. -/
theorem C6_user_turn_durable (st : SessionState) (s : String) (hs : s ≠ "")
    (auto : Bool) (oracle : Nat → AttemptResult) :
    st.chat_history ++ [mkUserTurn s] <+:
      (handleUserTurn st (some s) auto oracle).state.chat_history ∧
    (handleUserTurn st (some s) auto oracle).state.chat_history[st.chat_history.length]?
      = some (mkUserTurn s) := by
  have h := handleUserTurn_keeps_history st s hs auto oracle
  refine ⟨h, ?_⟩
  obtain ⟨t, ht⟩ := h
  rw [← ht, List.append_assoc, List.getElem?_append_right (le_refl _)]
  simp

/-- Witness for C6: the user turn survives a run whose remote call is
rate-limited (and which therefore crashes in the backoff handler). -/
theorem C6_user_turn_durable_witness :
    ("hi" ≠ "") ∧
    ([mkUserTurn "hi"] <+:
      (handleUserTurn ⟨[], 0⟩ (some "hi") true
        (fun _ => AttemptResult.rateLimited)).state.chat_history ∧
      (handleUserTurn ⟨[], 0⟩ (some "hi") true
        (fun _ => AttemptResult.rateLimited)).state.chat_history[(0 : Nat)]? =
        some (mkUserTurn "hi")) :=
  ⟨by decide, C6_user_turn_durable ⟨[], 0⟩ "hi" (by decide) true _⟩

theorem handleUserTurn_state_extends (st : SessionState) (input : Option String)
    (auto : Bool) (oracle : Nat → AttemptResult) :
    st.chat_history <+: (handleUserTurn st input auto oracle).state.chat_history := by
  match input with
  | none => exact ⟨[], List.append_nil _⟩
  | some s =>
    by_cases hs : s = ""
    · subst hs; exact ⟨[], List.append_nil _⟩
    · exact List.IsPrefix.trans ⟨[mkUserTurn s], rfl⟩
        (handleUserTurn_keeps_history st s hs auto oracle)

/-- C7: across any sequence of input-handling runs with no intervening
reset, the transcript only ever extends: the old history is a prefix of the
new one, hence the length is non-decreasing and the speaker and text of
every previously appended Turn are unchanged. -/
theorem C7_append_only (st : SessionState) (evs : List TurnEvent) :
    st.chat_history <+: (runSession st evs).chat_history ∧
    st.chat_history.length ≤ (runSession st evs).chat_history.length ∧
    ∀ i, i < st.chat_history.length →
      (runSession st evs).chat_history[i]? = st.chat_history[i]? := by
  have hpre : st.chat_history <+: (runSession st evs).chat_history := by
    induction evs generalizing st with
    | nil => exact ⟨[], List.append_nil _⟩
    | cons e rest ih =>
      exact List.IsPrefix.trans
        (handleUserTurn_state_extends st e.input e.auto_record_csv e.oracle) (ih _)
  refine ⟨hpre, hpre.length_le, ?_⟩
  intro i hi
  obtain ⟨t, ht⟩ := hpre
  rw [← ht, List.getElem?_append, if_pos hi]

theorem assistantCount_append (l₁ l₂ : List Turn) :
    assistantCount (l₁ ++ l₂) = assistantCount l₁ + assistantCount l₂ := by
  simp [assistantCount, List.filter_append]

theorem handleUserTurn_log_inv (st : SessionState) (input : Option String)
    (auto : Bool) (oracle : Nat → AttemptResult)
    (h : st.log_count = assistantCount st.chat_history) :
    (handleUserTurn st input auto oracle).state.log_count =
      assistantCount (handleUserTurn st input auto oracle).state.chat_history := by
  match input with
  | none => exact h
  | some s =>
    by_cases hs : s = ""
    · subst hs; exact h
    · unfold handleUserTurn
      dsimp only
      rw [if_neg hs]
      split
      · simp only [assistantCount, List.filter_append, mkUserTurn] at h ⊢
        simp; omega
      · split
        · split
          · simp only [assistantCount, List.filter_append, mkUserTurn] at h ⊢
            simp; omega
          · simp only [assistantCount, List.filter_append, mkUserTurn, mkModelTurn] at h ⊢
            simp; omega
        · simp only [assistantCount, List.filter_append, mkUserTurn] at h ⊢
          simp; omega

theorem runEvents_log_inv (st : SessionState) (evs : List SessionEvent)
    (h : st.log_count = assistantCount st.chat_history) :
    (runEvents st evs).log_count = assistantCount (runEvents st evs).chat_history := by
  induction evs generalizing st with
  | nil => exact h
  | cons e rest ih =>
    cases e with
    | turn te =>
      exact ih _ (handleUserTurn_log_inv st te.input te.auto_record_csv te.oracle h)
    | reset => exact ih _ rfl

/-- C10: starting from the initial session state, after any sequence of
input-handling runs and resets, `log_count` equals the number of Assistant
(`"model"`) Turns in the transcript — it is bumped exactly when a model turn
is appended (lines 192-193) — and the reset button leaves an empty
transcript with `log_count = 0` (lines 98-99). -/
theorem C10_log_count_invariant (evs : List SessionEvent) :
    (runEvents ⟨[], 0⟩ evs).log_count =
      assistantCount (runEvents ⟨[], 0⟩ evs).chat_history ∧
    ∀ st : SessionState, resetSession st = ⟨[], 0⟩ :=
  ⟨runEvents_log_inv ⟨[], 0⟩ evs rfl, fun _ => rfl⟩
